import Mathlib

/-!
Verification development for the `linkedin-job-automation` repository.

The definitions below are a shallow embedding of `src/linkedin_using_ai.py`
(the variant that covers every function the specification discusses;
`src/linkedin_job_automation.py` shares the same control structure for the
functions the two scripts have in common: `fill_application_steps`,
`apply_to_jobs`, `run_cycle`, the quota fields set in `__init__`).

External effects are modelled explicitly:
  * an AI provider client is an oracle `String → ProviderResult` mapping a
    prompt to either a returned text or a raised exception
    (`ProviderResult.err`); an unconfigured client is `none`;
  * the browser DOM observed at one wizard step is a `WizardStep` value, and
    a whole wizard session is an oracle `Nat → StepObs` giving the DOM each
    time the loop body re-queries it (`StepObs.raise` models a Selenium
    exception thrown while querying or clicking, which the source catches
    with its outer `try`/`except`);
  * writes into form fields (`send_keys`) are returned as an explicit list
    of (field, text) pairs instead of mutating a browser.
-/

namespace LinkedInUsingAI

/-- Outcome of one call into an AI client: the returned text, or a raised
exception. -/
inductive ProviderResult where
  | ok (text : String)
  | err
  deriving Repr, DecidableEq

/-- A provider client as stored on the bot: `none` when the API key was
absent or client construction failed (`self.gemini_client = None`), otherwise
an oracle from the prompt to the call's outcome. -/
def Client : Type := Option (String → ProviderResult)

/-- Configuration held by the `LinkedInJobAutomation` object after
`__init__`: the fields relevant to the claims. `applied_count` is *not*
here: it is run state, threaded explicitly through the functions below. -/
structure Bot where
  resume_path : String
  base_apps_path : String
  user_profile : String
  resume_text : String
  gemini_client : Client
  groq_client : Client
  job_keywords : List String
  max_apps : Nat

/-- `needle` occurs at the start of `hay` (character lists). -/
def starts_with : List Char → List Char → Bool
  | [], _ => true
  | _ :: _, [] => false
  | a :: as, b :: bs => a == b && starts_with as bs

/-- `needle` occurs somewhere inside `hay` (character lists). -/
def occurs_in (needle : List Char) : List Char → Bool
  | [] => starts_with needle []
  | b :: bs => starts_with needle (b :: bs) || occurs_in needle bs

/-- Python's `needle in hay` on strings. -/
def str_contains (hay needle : String) : Bool :=
  occurs_in needle.data hay.data

/-- The question prompt built by `get_ai_answer` (the f-string at
lines 123-135 of `linkedin_using_ai.py`). -/
def mk_question_prompt (bot : Bot) (question : String) : String :=
  "You are a smart job applicant. Answer this form question based on your profile facts.\n"
    ++ "Question: " ++ question ++ "\n\n"
    ++ "YOUR FACTS:\n" ++ bot.user_profile ++ "\n\n"
    ++ "Resume Snippet:\n" ++ (bot.resume_text.take 1500) ++ "\n\n"
    ++ "INSTRUCTIONS:\n"
    ++ "1. If asking for Salary/CTC number, output ONLY the number: '1800000'.\n"
    ++ "2. If asking for Notice Period, output '60 Days'.\n"
    ++ "3. If asking for Location, output 'Hyderabad'.\n"
    ++ "4. If asking for Years of Experience, calculate roughly from resume or say '0' if fresher.\n"
    ++ "5. Keep answer extremely concise (1-5 words).\n"
    ++ "Answer:"

/-- Python's `str.strip()`: drop whitespace from both ends. -/
def py_strip (s : String) : String :=
  String.mk (((s.data.dropWhile Char.isWhitespace).reverse.dropWhile
    Char.isWhitespace).reverse)

/-- `response.text.strip().replace('"', '')` applied to a provider's text
(replacing every double quote by nothing, i.e. dropping those characters). -/
def normalize_answer (t : String) : String :=
  String.mk ((py_strip t).data.filter (fun c => c != '"'))

/-- `get_ai_answer` (lines 119-156): one `try` block; inside it, if the
Gemini client exists it alone is called (`if self.gemini_client:`), and the
Groq client is consulted only in the `elif` branch, i.e. only when the
Gemini client is `None`. An exception anywhere in the block returns `""`. -/
def get_ai_answer (bot : Bot) (question : String) : String :=
  let prompt := mk_question_prompt bot question
  match bot.gemini_client with
  | some gemini =>
      match gemini prompt with
      | .ok t => normalize_answer t
      | .err => ""
  | none =>
      match bot.groq_client with
      | some groq =>
          match groq prompt with
          | .ok t => normalize_answer t
          | .err => ""
      | none => ""

/-- One input element matched by the selector
`input[type='text'], input[type='number'], textarea` in
`answer_form_questions`, together with the observations the code makes of
it: `displayed` is `is_displayed()`, `value` is `get_attribute('value')`
(with `""` standing for both the empty string and `None`, which Python's
truthiness test treats alike), `id` is `get_attribute('id')`, `label_text`
is the text of the first `label[for=id]` element when such a label exists on
the page, and `aria_label` is `get_attribute('aria-label')` (again `""` for
`None`). -/
structure FormField where
  displayed : Bool
  value : String
  id : String
  label_text : Option String
  aria_label : String
  deriving Repr, DecidableEq

/-- Question resolution in `answer_form_questions` (lines 170-180): take the
`label[for=id]` text when the field has a non-empty id and such a label
exists; when that leaves the question empty, fall back to `aria-label`. -/
def resolve_question (f : FormField) : String :=
  let q := if f.id ≠ "" then
    (match f.label_text with
     | some t => t
     | none => "")
    else ""
  if q = "" then f.aria_label else q

/-- The text `send_keys` would receive for one field, or `none` when the
loop body skips the field: not displayed, pre-filled (`value` truthy), no
resolvable question, or an empty AI answer. -/
def field_write (bot : Bot) (f : FormField) : Option String :=
  if !f.displayed then none
  else if f.value ≠ "" then none
  else
    let q := resolve_question f
    if q = "" then none
    else
      let a := get_ai_answer bot q
      if a = "" then none else some a

/-- `answer_form_questions` (lines 158-188), with its effect on the page
made explicit: the list of (field, text) pairs on which `send_keys` is
called, in order. -/
def answer_form_questions (bot : Bot) (inputs : List FormField) :
    List (FormField × String) :=
  inputs.filterMap (fun f => (field_write bot f).map (fun a => (f, a)))

/-- A `<button>` element, with the two attributes the code reads:
`b.text` and `b.get_attribute("aria-label")` (`""` for a missing
attribute). -/
structure Button where
  text : String
  aria_label : String
  deriving Repr, DecidableEq

/-- The XPath filter used by `fill_application_steps` (line 260): a button
whose `aria-label` contains `Continue`, `Next`, `Review` or `Submit`. -/
def nav_button (b : Button) : Bool :=
  str_contains b.aria_label "Continue" || str_contains b.aria_label "Next"
    || str_contains b.aria_label "Review" || str_contains b.aria_label "Submit"

/-- The submit test at line 263: `"Submit" in b.text or
"Submit application" in b.get_attribute("aria-label")`. -/
def is_submit_button (b : Button) : Bool :=
  str_contains b.text "Submit" || str_contains b.aria_label "Submit application"

/-- The DOM as one iteration of the wizard loop observes it: the text
inputs scanned by `answer_form_questions`, whether an `input[type='file']`
exists (first one receives the resume path), and the page's buttons, from
which the loop keeps only the `nav_button` matches. -/
structure WizardStep where
  inputs : List FormField
  file_input_present : Bool
  page_buttons : List Button

/-- One loop iteration's interaction with the browser: either the queries
and clicks all succeed and the DOM observed is `st`, or some interaction in
the navigation part raises a Selenium exception, which the outer
`try`/`except` of `fill_application_steps` turns into `return False`.
(Exceptions inside `answer_form_questions` and the upload block are
swallowed by their own local handlers and never escape.) -/
inductive StepObs where
  | raise
  | ok (st : WizardStep)

/-- `buttons` as computed at line 260 of one iteration. -/
def step_buttons (st : WizardStep) : List Button :=
  st.page_buttons.filter nav_button

/-- What the navigation part of one iteration does, given the filtered
button list. -/
inductive StepDecision where
  | submitted (b : Button)
  | advanced (b : Button)
  | stuck

/-- Lines 261-268: empty button list breaks the loop (`stuck`); otherwise
`submit_btn = [b for b in buttons if ...]`, and if non-empty its head is
clicked and the function returns `True` (`submitted`); otherwise
`buttons[0]` is clicked and the loop continues (`advanced`). -/
def nav_decision (buttons : List Button) : StepDecision :=
  match buttons with
  | [] => .stuck
  | b0 :: rest =>
      match (b0 :: rest).filter is_submit_button with
      | s :: _ => .submitted s
      | [] => .advanced b0

/-- The `for _ in range(6)` loop of `fill_application_steps`, from
iteration index `i` with `fuel` iterations left. The per-iteration
form-filling and upload actions affect only the browser, never the control
flow, so the returned boolean depends only on the navigation decisions. -/
def fill_from (surface : Nat → StepObs) (i : Nat) : Nat → Bool
  | 0 => false
  | fuel + 1 =>
      match surface i with
      | .raise => false
      | .ok st =>
          match nav_decision (step_buttons st) with
          | .submitted _ => true
          | .advanced _ => fill_from surface (i + 1) fuel
          | .stuck => false

/-- `fill_application_steps` (lines 244-270): up to 6 iterations; `True`
exactly when some iteration clicks a submit button. `resume_path` is only
sent to the file input (an effect on the browser), so it does not occur in
the result. -/
def fill_application_steps (resume_path : String) (surface : Nat → StepObs) :
    Bool :=
  let _ := resume_path
  fill_from surface 0 6

/-- Python truthiness of `tailored_text`: `None` or the empty string. -/
def falsy : Option String → Bool
  | none => true
  | some s => s = ""

/-- The tailoring prompt (lines 205-210). -/
def tailor_prompt (bot : Bot) (job_desc company_name : String) : String :=
  "Role: " ++ company_name ++ "\n"
    ++ "Task: Rewrite resume to match JD. Return ONLY clean text body.\n"
    ++ "JD: " ++ job_desc ++ "\n"
    ++ "Resume: " ++ bot.resume_text

/-- Line 234: keep alphanumerics, spaces and underscores, strip, default to
`"Unknown"` when the result is empty. -/
def clean_company_name (company_name : String) : String :=
  let s := py_strip (String.mk (company_name.data.filter
    (fun c => c.isAlphanum || c == ' ' || c == '_')))
  if s = "" then "Unknown" else s

/-- The PDF output path built at lines 235-237 (`Path` joins rendered as
string concatenation). -/
def tailored_pdf_path (bot : Bot) (company_name : String) : String :=
  let cn := clean_company_name company_name
  bot.base_apps_path ++ "/" ++ cn ++ "/resume_" ++ cn ++ ".pdf"

/-- `tailor_resume` (lines 203-242). Gemini is tried first when configured
(its exception swallowed by `except: pass`); Groq is tried only when the
text so far is falsy and a Groq client exists; a truthy text is rendered
via `create_pdf` (outcome given by the `render_ok` oracle), and every
failure path falls through to the original `resume_path`. -/
def tailor_resume (bot : Bot) (render_ok : Bool)
    (job_desc company_name : String) : String :=
  let prompt := tailor_prompt bot job_desc company_name
  let t1 : Option String :=
    match bot.gemini_client with
    | some gemini =>
        match gemini prompt with
        | .ok t => some t
        | .err => none
    | none => none
  let t2 : Option String :=
    if falsy t1 then
      match bot.groq_client with
      | some groq =>
          match groq prompt with
          | .ok t => some t
          | .err => t1
      | none => t1
    else t1
  match t2 with
  | some t =>
      if t ≠ "" then
        if render_ok then tailored_pdf_path bot company_name
        else bot.resume_path
      else bot.resume_path
  | none => bot.resume_path

/-- One `job-card-container` element from a search-results page, with the
observations `apply_to_jobs` makes after clicking it. `job_id` is the
posting's identity as it exists on the platform; the code never reads it
(it keeps no ledger), which is why no other definition below mentions it.
`raises_on_open` models a Selenium exception thrown while scrolling,
clicking the card, or locating the apply button — everything the per-card
`except: continue` handler absorbs. `company_elem` / `jd_elem` are `none`
when the corresponding `find_element` raises (handled locally, lines
292-296). `apply_button_texts` are the texts of the
`jobs-apply-button` matches; `render_ok` is the `create_pdf` outcome should
tailoring reach rendering; `wizard` is the wizard surface behind the apply
button. -/
structure JobCard where
  job_id : String
  raises_on_open : Bool
  company_elem : Option String
  jd_elem : Option String
  apply_button_texts : List String
  render_ok : Bool
  wizard : Nat → StepObs

/-- Line 292-293: company name, `"Unknown"` when the lookup raises. -/
def card_company (c : JobCard) : String :=
  c.company_elem.getD "Unknown"

/-- Line 295-296: job description text, `""` when the lookup raises. -/
def card_jd (c : JobCard) : String :=
  c.jd_elem.getD ""

/-- The body of the per-card `try` (lines 288-315) acting on the applied
count. Returns the new count together with the trace of wizard sessions
started: one entry per click of the apply button (line 301), recording the
applied count at that moment. The count increments exactly when
`fill_application_steps` returns `True`; the dismiss-and-discard sequence on
the failure path touches only the browser. -/
def process_card (bot : Bot) (count : Nat) (c : JobCard) : Nat × List Nat :=
  if c.raises_on_open then (count, [])
  else
    match c.apply_button_texts with
    | [] => (count, [])
    | btn :: _ =>
        if str_contains btn "Easy Apply" then
          let resume_to_use :=
            tailor_resume bot c.render_ok (card_jd c) (card_company c)
          (if fill_application_steps resume_to_use c.wizard then count + 1
           else count,
           [count])
        else (count, [])

/-- The `for card in job_cards[:3]` loop (lines 285-316): before each card,
`if self.applied_count >= self.max_apps: break`; a card's exception leaves
the count unchanged and the loop continues. The caller passes
`cards.take 3`. -/
def cards_loop (bot : Bot) : Nat → List JobCard → Nat × List Nat
  | count, [] => (count, [])
  | count, c :: rest =>
      if bot.max_apps ≤ count then (count, [])
      else
        let r1 := process_card bot count c
        let r2 := cards_loop bot r1.1 rest
        (r2.1, r1.2 ++ r2.2)

/-- Obtaining one keyword's search results, in the two stages the source
performs them in. `self.driver.get(search_url)` at line 277 sits *outside*
the per-keyword `try` (which only starts at line 280): an exception there
propagates out of `apply_to_jobs` and ends the run (`nav_raise`). The
`WebDriverWait` for `job-card-container` elements at lines 281-283 is
*inside* the `try`, so its exception is caught by the per-keyword `except`
at line 317, which logs and moves to the next keyword (`wait_raise`). -/
inductive SearchObs where
  | nav_raise
  | wait_raise
  | ok (cards : List JobCard)

/-- The keyword loop of `apply_to_jobs` (lines 272-317), over an explicit
keyword list. A `wait_raise` skips just this keyword; a `nav_raise` is
uncaught inside `apply_to_jobs`, so the remaining keywords are never
visited — the loop's observable behaviour is the state at the moment of
the raise, which then propagates to `run_cycle`'s handler. -/
def apply_loop (bot : Bot) (search : String → SearchObs) :
    Nat → List String → Nat × List Nat
  | count, [] => (count, [])
  | count, kw :: rest =>
      if bot.max_apps ≤ count then (count, [])
      else
        match search kw with
        | .nav_raise => (count, [])
        | .wait_raise => apply_loop bot search count rest
        | .ok cards =>
            let r1 := cards_loop bot count (cards.take 3)
            let r2 := apply_loop bot search r1.1 rest
            (r2.1, r1.2 ++ r2.2)

/-- `apply_to_jobs`, iterating `self.job_keywords`. -/
def apply_to_jobs (bot : Bot) (search : String → SearchObs)
    (count : Nat) : Nat × List Nat :=
  apply_loop bot search count bot.job_keywords

/-- `run_cycle` (lines 319-327): when `login` raises (`login_ok = false`)
the exception is caught by the cycle's `except` after skipping
`apply_to_jobs`, so the cycle performs no applications; otherwise the cycle
is one `apply_to_jobs` run (whose uncaught `nav_raise` exception is also
absorbed by the cycle's `except`, leaving the state as it was at the
raise). The instance attribute `applied_count` is the `count` argument,
threaded through; nothing in `run_cycle` resets it. -/
def run_cycle (bot : Bot) (login_ok : Bool)
    (search : String → SearchObs) (count : Nat) :
    Nat × List Nat :=
  if login_ok then apply_to_jobs bot search count else (count, [])

/-- A process lifetime as driven by `start` and the scheduler: the object
is constructed once (`self.applied_count = 0` in `__init__`, line 86) and
`run_cycle` is invoked repeatedly; each invocation sees its own login
outcome and search results. Returns the applied count after all cycles. -/
def run_cycles (bot : Bot) :
    List (Bool × (String → SearchObs)) → Nat → Nat
  | [], count => count
  | (l, s) :: rest, count => run_cycles bot rest (run_cycle bot l s count).1

/-- Whether one observed iteration would click a submit button. -/
def step_submits : StepObs → Bool
  | .raise => false
  | .ok st =>
      match nav_decision (step_buttons st) with
      | .submitted _ => true
      | _ => false

/-- A bot configuration used to instantiate theorems with hypotheses. -/
def w_bot : Bot :=
  { resume_path := "resume.txt"
  , base_apps_path := "Applications"
  , user_profile := "profile facts"
  , resume_text := "resume body"
  , gemini_client := none
  , groq_client := none
  , job_keywords := ["Software Engineer"]
  , max_apps := 20 }

/-- A search oracle whose card wait always raises (the caught,
per-keyword-skipped failure). -/
def w_search : String → SearchObs := fun _ => .wait_raise

/-- A bot whose Gemini client is configured but raises on every call, while
its Groq client is configured and returns `"60 Days"`. -/
def c3_bot : Bot :=
  { w_bot with
    gemini_client := some (fun _ => .err)
  , groq_client := some (fun _ => .ok "60 Days") }

/-- A nav-bar submit button. -/
def sub_btn : Button := { text := "Submit application", aria_label := "Submit application" }

/-- A nav-bar continue button. -/
def cont_btn : Button := { text := "Continue", aria_label := "Continue to next step" }

/-- A wizard page offering both a continue and a submit control. -/
def st_submit : WizardStep :=
  { inputs := [], file_input_present := false, page_buttons := [cont_btn, sub_btn] }

/-- A wizard page offering only a continue control. -/
def st_cont : WizardStep :=
  { inputs := [], file_input_present := false, page_buttons := [cont_btn] }

/-- A wizard page offering no actionable control. -/
def st_empty : WizardStep :=
  { inputs := [], file_input_present := false, page_buttons := [] }

/-- A job card for the posting `J1`, quick-apply capable, whose wizard
submits on the first step. -/
def c4_card : JobCard :=
  { job_id := "J1"
  , raises_on_open := false
  , company_elem := some "Acme Corp"
  , jd_elem := some "job description"
  , apply_button_texts := ["Easy Apply"]
  , render_ok := true
  , wizard := fun _ => .ok st_submit }

/-- A search oracle yielding the posting `J1` twice (the same card, the
same `job_id`). -/
def c4_search : String → SearchObs := fun _ => .ok [c4_card, c4_card]

/-- A bot configured with two search keywords. -/
def c9_bot : Bot := { w_bot with job_keywords := ["k1", "k2"] }

/-- A search oracle where loading the first keyword's results page raises
(the uncaught `driver.get` failure), while the second keyword would yield
an applicable posting. -/
def c9_search : String → SearchObs :=
  fun kw => if kw = "k1" then .nav_raise else .ok [c4_card]

/-- A bot whose Gemini client answers every question with `1800000`. -/
def w5_bot : Bot := { w_bot with gemini_client := some (fun _ => .ok "1800000") }

/-- A displayed, empty text input labelled only by `aria-label`. -/
def w5_field : FormField :=
  { displayed := true, value := "", id := "", label_text := none
  , aria_label := "Expected CTC" }

/-- A provider attempt that cannot contribute a usable text: the client is
unconfigured, or its call raises, or it returns empty text. -/
def provider_fails (c : Client) (prompt : String) : Prop :=
  c = none ∨ ∃ f, c = some f ∧ (f prompt = .err ∨ f prompt = .ok "")

/-- A job card whose opening interaction raises. -/
def bad_card : JobCard := { c4_card with raises_on_open := true }

/-! ### Lemmas and claim theorems -/

theorem process_card_fst_cases (bot : Bot) (count : Nat) (c : JobCard) :
    (process_card bot count c).1 = count ∨ (process_card bot count c).1 = count + 1 := by
  unfold process_card
  split
  · exact Or.inl rfl
  · split
    · exact Or.inl rfl
    · split
      · dsimp only
        split
        · exact Or.inr rfl
        · exact Or.inl rfl
      · exact Or.inl rfl

theorem process_card_fst_ge (bot : Bot) (count : Nat) (c : JobCard) :
    count ≤ (process_card bot count c).1 := by
  rcases process_card_fst_cases bot count c with h | h <;> omega

theorem process_card_fst_le (bot : Bot) (count : Nat) (c : JobCard) :
    (process_card bot count c).1 ≤ count + 1 := by
  rcases process_card_fst_cases bot count c with h | h <;> omega

theorem process_card_events (bot : Bot) (count : Nat) (c : JobCard) :
    ∀ e ∈ (process_card bot count c).2, e = count := by
  unfold process_card
  split
  · simp
  · split
    · simp
    · split
      · simp
      · simp

theorem cards_loop_fst_le (bot : Bot) :
    ∀ (cards : List JobCard) (count : Nat), count ≤ bot.max_apps →
      (cards_loop bot count cards).1 ≤ bot.max_apps := by
  intro cards
  induction cards with
  | nil => intro count h; exact h
  | cons c rest ih =>
      intro count h
      unfold cards_loop
      split
      · exact h
      · rename_i hguard
        exact ih _ (by have := process_card_fst_le bot count c; omega)

theorem cards_loop_fst_ge (bot : Bot) :
    ∀ (cards : List JobCard) (count : Nat),
      count ≤ (cards_loop bot count cards).1 := by
  intro cards
  induction cards with
  | nil => intro count; exact Nat.le_refl count
  | cons c rest ih =>
      intro count
      unfold cards_loop
      split
      · exact Nat.le_refl count
      · exact Nat.le_trans (process_card_fst_ge bot count c) (ih _)

theorem cards_loop_events (bot : Bot) :
    ∀ (cards : List JobCard) (count : Nat),
      ∀ e ∈ (cards_loop bot count cards).2, e < bot.max_apps := by
  intro cards
  induction cards with
  | nil => intro count e he; simp [cards_loop] at he
  | cons c rest ih =>
      intro count e he
      unfold cards_loop at he
      split at he
      · simp at he
      · rename_i hguard
        simp only [List.mem_append] at he
        rcases he with he | he
        · have := process_card_events bot count c e he
          omega
        · exact ih _ e he

theorem apply_loop_fst_le (bot : Bot) (search : String → SearchObs) :
    ∀ (kws : List String) (count : Nat), count ≤ bot.max_apps →
      (apply_loop bot search count kws).1 ≤ bot.max_apps := by
  intro kws
  induction kws with
  | nil => intro count h; exact h
  | cons kw rest ih =>
      intro count h
      unfold apply_loop
      split
      · exact h
      · split
        · exact h
        · exact ih _ h
        · exact ih _ (cards_loop_fst_le bot _ _ h)

theorem apply_loop_fst_ge (bot : Bot) (search : String → SearchObs) :
    ∀ (kws : List String) (count : Nat),
      count ≤ (apply_loop bot search count kws).1 := by
  intro kws
  induction kws with
  | nil => intro count; exact Nat.le_refl count
  | cons kw rest ih =>
      intro count
      unfold apply_loop
      split
      · exact Nat.le_refl count
      · split
        · exact Nat.le_refl count
        · exact ih _
        · exact Nat.le_trans (cards_loop_fst_ge bot _ _) (ih _)

theorem apply_loop_events (bot : Bot) (search : String → SearchObs) :
    ∀ (kws : List String) (count : Nat),
      ∀ e ∈ (apply_loop bot search count kws).2, e < bot.max_apps := by
  intro kws
  induction kws with
  | nil => intro count e he; simp [apply_loop] at he
  | cons kw rest ih =>
      intro count e he
      unfold apply_loop at he
      split at he
      · simp at he
      · split at he
        · simp at he
        · exact ih _ e he
        · simp only [List.mem_append] at he
          rcases he with he | he
          · exact cards_loop_events bot _ _ e he
          · exact ih _ e he

theorem fill_from_congr :
    ∀ (fuel i : Nat) (s1 s2 : Nat → StepObs),
      (∀ j, i ≤ j → j < i + fuel → s1 j = s2 j) →
      fill_from s1 i fuel = fill_from s2 i fuel := by
  intro fuel
  induction fuel with
  | zero => intro i s1 s2 _; rfl
  | succ n ih =>
      intro i s1 s2 h
      have hi : s2 i = s1 i := (h i (Nat.le_refl i) (by omega)).symm
      cases hsi : s1 i with
      | raise => simp [fill_from, hsi, hi]
      | ok st =>
          cases hnd : nav_decision (step_buttons st) with
          | submitted b => simp [fill_from, hsi, hi, hnd]
          | stuck => simp [fill_from, hsi, hi, hnd]
          | advanced b =>
              simp only [fill_from, hsi, hi, hnd]
              exact ih (i + 1) s1 s2 (fun j hj1 hj2 => h j (by omega) (by omega))

theorem fill_from_no_submit :
    ∀ (fuel i : Nat) (s : Nat → StepObs),
      (∀ j, i ≤ j → j < i + fuel → step_submits (s j) = false) →
      fill_from s i fuel = false := by
  intro fuel
  induction fuel with
  | zero => intro i s _; rfl
  | succ n ih =>
      intro i s h
      have hi := h i (Nat.le_refl i) (by omega)
      cases hsi : s i with
      | raise => simp [fill_from, hsi]
      | ok st =>
          cases hnd : nav_decision (step_buttons st) with
          | submitted b =>
              rw [hsi] at hi
              simp [step_submits, hnd] at hi
          | stuck => simp [fill_from, hsi, hnd]
          | advanced b =>
              simp only [fill_from, hsi, hnd]
              exact ih (i + 1) s (fun j hj1 hj2 => h j (by omega) (by omega))

/-- C1. Quota invariant of `apply_to_jobs`: starting a run with
`applied_count ≤ max_apps` (in particular from the constructor's `0`), the
count after the run still satisfies `≤ max_apps`; and every wizard session
is started (the apply button clicked) only at a moment when the count is
strictly below the quota — the check happens before the session, not only
after. -/
theorem apply_to_jobs_quota_invariant
    (bot : Bot) (search : String → SearchObs) (count : Nat)
    (h : count ≤ bot.max_apps) :
    (apply_to_jobs bot search count).1 ≤ bot.max_apps ∧
      ∀ e ∈ (apply_to_jobs bot search count).2, e < bot.max_apps :=
  ⟨apply_loop_fst_le bot search bot.job_keywords count h,
   apply_loop_events bot search bot.job_keywords count⟩

/-- Witness for C1 at a concrete configuration. -/
theorem apply_to_jobs_quota_invariant_witness :
    (apply_to_jobs w_bot w_search 0).1 ≤ w_bot.max_apps ∧
      ∀ e ∈ (apply_to_jobs w_bot w_search 0).2, e < w_bot.max_apps :=
  apply_to_jobs_quota_invariant w_bot w_search 0 (by decide)

/-- C2. `fill_application_steps` always terminates within the fixed budget
of 6 iterations: its result is determined by the first 6 wizard-surface
observations alone, and any surface whose first 6 observations never click
a submit button — including one that never offers a submit control and one
where every interaction raises — yields `False`, the non-submitted
outcome. -/
theorem fill_application_steps_terminates_within_budget
    (resume_path : String) (s1 s2 : Nat → StepObs) :
    ((∀ i, i < 6 → s1 i = s2 i) →
        fill_application_steps resume_path s1 = fill_application_steps resume_path s2) ∧
    ((∀ i, i < 6 → step_submits (s1 i) = false) →
        fill_application_steps resume_path s1 = false) := by
  constructor
  · intro h
    exact fill_from_congr 6 0 s1 s2 (fun j _ hj => h j (by omega))
  · intro h
    exact fill_from_no_submit 6 0 s1 (fun j _ hj => h j (by omega))

/-- Witness for C2: a surface offering a submit control only from step 6
on is indistinguishable from one that never offers it, and a surface where
every interaction raises yields `False`. -/
theorem fill_application_steps_terminates_within_budget_witness :
    fill_application_steps "resume.txt"
        (fun i => if i < 6 then .ok st_cont else .ok st_submit) =
      fill_application_steps "resume.txt" (fun _ => .ok st_cont) ∧
    fill_application_steps "resume.txt" (fun _ => .raise) = false :=
  ⟨(fill_application_steps_terminates_within_budget "resume.txt"
      (fun i => if i < 6 then .ok st_cont else .ok st_submit)
      (fun _ => .ok st_cont)).1 (fun i hi => by simp [hi]),
   (fill_application_steps_terminates_within_budget "resume.txt"
      (fun _ => .raise) (fun _ => .raise)).2 (fun _ _ => rfl)⟩

/-- C3 counterexample. With Gemini configured-but-failing and Groq
configured-and-succeeding, `get_ai_answer` returns the empty string — not a
non-empty answer — because the `elif` at line 147 consults Groq only when
no Gemini client exists; the second conjunct shows the very same Groq
client would have produced `"60 Days"`. -/
theorem get_ai_answer_no_fallback_counterexample :
    get_ai_answer c3_bot "Expected CTC" = "" ∧
      get_ai_answer { c3_bot with gemini_client := none } "Expected CTC" = "60 Days" := by
  constructor <;> rfl

/-- C3 amended. Providers are consulted with a hard preference, not a
fallback chain: when a Gemini client is configured, it alone is called, and
a failing Gemini call yields the empty string regardless of any configured
Groq client; Groq is consulted only when no Gemini client exists, in which
case its successful response is returned (normalized). -/
theorem get_ai_answer_priority_amended :
    (∀ (bot : Bot) (q : String) (g : String → ProviderResult),
        bot.gemini_client = some g →
        g (mk_question_prompt bot q) = .err →
        get_ai_answer bot q = "") ∧
    (∀ (bot : Bot) (q : String) (gr : String → ProviderResult) (t : String),
        bot.gemini_client = none →
        bot.groq_client = some gr →
        gr (mk_question_prompt bot q) = .ok t →
        get_ai_answer bot q = normalize_answer t) := by
  constructor
  · intro bot q g hg herr
    simp [get_ai_answer, hg, herr]
  · intro bot q gr t hg hgr hok
    simp [get_ai_answer, hg, hgr, hok]

/-- Witness for the amended C3 at the concrete configuration. -/
theorem get_ai_answer_priority_amended_witness :
    get_ai_answer c3_bot "Expected CTC" = "" ∧
      get_ai_answer { c3_bot with gemini_client := none } "Expected CTC" =
        normalize_answer "60 Days" :=
  ⟨get_ai_answer_priority_amended.1 c3_bot "Expected CTC" (fun _ => .err) rfl rfl,
   get_ai_answer_priority_amended.2 { c3_bot with gemini_client := none }
     "Expected CTC" (fun _ => .ok "60 Days") "60 Days" rfl rfl rfl⟩

/-- C4 counterexample. Encountering the same `job_id` twice is not a skip
and recording is not idempotent: the run applies to posting `J1` twice and
the applied count ends at 2, with a wizard session started at counts 0 and
1 — the code keeps no ledger at all. -/
theorem no_ledger_counterexample :
    (apply_to_jobs w_bot c4_search 0).1 = 2 ∧
      (apply_to_jobs w_bot c4_search 0).2 = [0, 1] := by
  constructor <;> rfl

/-- Processing one quick-apply card whose wizard submits: count goes up by
one and one session is recorded. -/
theorem process_card_applied (bot : Bot) (count : Nat) (c : JobCard)
    (h1 : c.raises_on_open = false) (btn : String) (bs : List String)
    (h2 : c.apply_button_texts = btn :: bs)
    (h3 : str_contains btn "Easy Apply" = true)
    (h4 : fill_from c.wizard 0 6 = true) :
    process_card bot count c = (count + 1, [count]) := by
  unfold process_card
  simp [h1, h2, h3, fill_application_steps, h4]

/-- C4 amended. The code maintains no application ledger: a posting's
identity is never read (`process_card` is invariant under changing
`job_id`), so re-encountering an already-applied-to posting re-applies and
increments the count again — two encounters of the same card yield two
applications when quota allows. -/
theorem no_dedup_reapplies_amended (bot : Bot) (count : Nat) (c : JobCard)
    (id1 id2 : String) :
    (process_card bot count { c with job_id := id1 } =
        process_card bot count { c with job_id := id2 }) ∧
    (c.raises_on_open = false →
      ∀ (btn : String) (bs : List String),
        c.apply_button_texts = btn :: bs →
        str_contains btn "Easy Apply" = true →
        fill_from c.wizard 0 6 = true →
        count + 1 < bot.max_apps →
        cards_loop bot count [c, c] = (count + 2, [count, count + 1])) := by
  constructor
  · rfl
  · intro h1 btn bs h2 h3 h4 h5
    have hpc1 := process_card_applied bot count c h1 btn bs h2 h3 h4
    have hpc2 := process_card_applied bot (count + 1) c h1 btn bs h2 h3 h4
    have g1 : ¬ bot.max_apps ≤ count := by omega
    have g2 : ¬ bot.max_apps ≤ count + 1 := by omega
    simp [cards_loop, g1, g2, hpc1, hpc2]

/-- Witness for the amended C4 at the concrete duplicated posting. -/
theorem no_dedup_reapplies_amended_witness :
    (process_card w_bot 0 { c4_card with job_id := "A" } =
        process_card w_bot 0 { c4_card with job_id := "B" }) ∧
      cards_loop w_bot 0 [c4_card, c4_card] = (2, [0, 1]) :=
  ⟨(no_dedup_reapplies_amended w_bot 0 c4_card "A" "B").1,
   (no_dedup_reapplies_amended w_bot 0 c4_card "A" "B").2 rfl "Easy Apply" []
     rfl (by decide) (by decide) (by decide)⟩

/-- C5. Non-destructive fill: every write `answer_form_questions` performs
targets a field that is displayed and whose current value is empty; a
prefilled (non-empty) field is never written to. -/
theorem answer_form_questions_never_overwrites
    (bot : Bot) (inputs : List FormField) (f : FormField) (a : String)
    (h : (f, a) ∈ answer_form_questions bot inputs) :
    f.value = "" ∧ f.displayed = true := by
  unfold answer_form_questions at h
  rw [List.mem_filterMap] at h
  obtain ⟨x, _, hmap⟩ := h
  cases hw : field_write bot x with
  | none => rw [hw] at hmap; simp at hmap
  | some w =>
      rw [hw] at hmap
      have hpair : (x, w) = (f, a) := by
        simpa using hmap
      have hx : x = f := congrArg Prod.fst hpair
      subst hx
      unfold field_write at hw
      split_ifs at hw with h1 h2
      simp only [Bool.not_eq_true', Bool.not_eq_false] at h1
      constructor
      · by_contra hv
        exact h2 hv
      · exact h1

/-- Witness for C5: the concrete field that does get written. -/
theorem answer_form_questions_never_overwrites_witness :
    w5_field.value = "" ∧ w5_field.displayed = true :=
  answer_form_questions_never_overwrites w5_bot [w5_field] w5_field "1800000"
    (by decide)

/-- In a non-empty button list with no submit match, the first button is
the one clicked. -/
theorem nav_decision_no_submit (b0 : Button) (bs : List Button)
    (h : ∀ b ∈ b0 :: bs, is_submit_button b = false) :
    nav_decision (b0 :: bs) = .advanced b0 := by
  have hf : (b0 :: bs).filter is_submit_button = [] := by
    rw [List.filter_eq_nil_iff]
    intro b hb
    simp [h b hb]
  unfold nav_decision
  simp only [hf]

/-- When some button matches the submit test, the decision is `submitted`
with a matching button from the list. -/
theorem nav_decision_submit (buttons : List Button)
    (h : ∃ b ∈ buttons, is_submit_button b = true) :
    ∃ s ∈ buttons, is_submit_button s = true ∧
      nav_decision buttons = .submitted s := by
  obtain ⟨b, hb, hsb⟩ := h
  cases buttons with
  | nil => simp at hb
  | cons b0 bs =>
      cases hf : (b0 :: bs).filter is_submit_button with
      | nil =>
          have hmem : b ∈ (b0 :: bs).filter is_submit_button :=
            List.mem_filter.2 ⟨hb, hsb⟩
          rw [hf] at hmem
          simp at hmem
      | cons s ss =>
          have hs : s ∈ (b0 :: bs).filter is_submit_button := by
            rw [hf]; exact List.mem_cons_self s ss
          have hx := List.mem_filter.1 hs
          refine ⟨s, hx.1, hx.2, ?_⟩
          unfold nav_decision
          simp only [hf]

/-- C6. Fixed priority of the per-step control decision, and its effect on
the loop: a submit match is clicked and the loop returns `True` at once; a
non-empty button list with no submit match clicks the first button and the
loop moves to the next iteration; an empty button list exits the loop with
the non-submitted outcome. -/
theorem wizard_step_control_priority :
    (∀ (surface : Nat → StepObs) (i fuel : Nat) (st : WizardStep),
        surface i = .ok st →
        (∃ b ∈ step_buttons st, is_submit_button b = true) →
        (∃ s ∈ step_buttons st, is_submit_button s = true ∧
            nav_decision (step_buttons st) = .submitted s) ∧
          fill_from surface i (fuel + 1) = true) ∧
    (∀ (surface : Nat → StepObs) (i fuel : Nat) (st : WizardStep)
        (b0 : Button) (bs : List Button),
        surface i = .ok st →
        step_buttons st = b0 :: bs →
        (∀ b ∈ step_buttons st, is_submit_button b = false) →
        nav_decision (step_buttons st) = .advanced b0 ∧
          fill_from surface i (fuel + 1) = fill_from surface (i + 1) fuel) ∧
    (∀ (surface : Nat → StepObs) (i fuel : Nat) (st : WizardStep),
        surface i = .ok st →
        step_buttons st = [] →
        nav_decision (step_buttons st) = .stuck ∧
          fill_from surface i (fuel + 1) = false) := by
  refine ⟨?_, ?_, ?_⟩
  · intro surface i fuel st hok hex
    obtain ⟨s, hs, hsub, hnd⟩ := nav_decision_submit (step_buttons st) hex
    exact ⟨⟨s, hs, hsub, hnd⟩, by simp [fill_from, hok, hnd]⟩
  · intro surface i fuel st b0 bs hok hbt hall
    have hnd : nav_decision (step_buttons st) = .advanced b0 := by
      rw [hbt]
      exact nav_decision_no_submit b0 bs (hbt ▸ hall)
    exact ⟨hnd, by simp [fill_from, hok, hnd]⟩
  · intro surface i fuel st hok hbt
    have hnd : nav_decision (step_buttons st) = .stuck := by
      rw [hbt]; rfl
    exact ⟨hnd, by simp [fill_from, hok, hnd]⟩

/-- Witness for C6: the three control situations at concrete pages. -/
theorem wizard_step_control_priority_witness :
    ((∃ s ∈ step_buttons st_submit, is_submit_button s = true ∧
        nav_decision (step_buttons st_submit) = .submitted s) ∧
      fill_from (fun _ => .ok st_submit) 0 1 = true) ∧
    (nav_decision (step_buttons st_cont) = .advanced cont_btn ∧
      fill_from (fun _ => .ok st_cont) 0 1 = fill_from (fun _ => .ok st_cont) 1 0) ∧
    (nav_decision (step_buttons st_empty) = .stuck ∧
      fill_from (fun _ => .ok st_empty) 0 1 = false) :=
  ⟨wizard_step_control_priority.1 (fun _ => .ok st_submit) 0 0 st_submit rfl
      (by decide),
   wizard_step_control_priority.2.1 (fun _ => .ok st_cont) 0 0 st_cont cont_btn []
      rfl (by decide) (by decide),
   wizard_step_control_priority.2.2 (fun _ => .ok st_empty) 0 0 st_empty rfl
      (by decide)⟩

/-- C7. Degradation to the empty answer: with no provider configured, or
the consulted provider failing, `get_ai_answer` returns `""` without
raising; and the caller's guard treats an empty answer as "leave the field
unmodified" — `field_write` performs no write. -/
theorem empty_answer_leaves_field_unmodified :
    (∀ (bot : Bot) (q : String),
        (bot.gemini_client = none ∧ bot.groq_client = none) ∨
          (∃ g, bot.gemini_client = some g ∧
            g (mk_question_prompt bot q) = .err) ∨
          (bot.gemini_client = none ∧
            ∃ gr, bot.groq_client = some gr ∧
              gr (mk_question_prompt bot q) = .err) →
        get_ai_answer bot q = "") ∧
    (∀ (bot : Bot) (f : FormField),
        get_ai_answer bot (resolve_question f) = "" →
        field_write bot f = none) := by
  constructor
  · intro bot q h
    rcases h with ⟨h1, h2⟩ | ⟨g, h1, h2⟩ | ⟨h1, gr, h2, h3⟩
    · simp [get_ai_answer, h1, h2]
    · simp [get_ai_answer, h1, h2]
    · simp [get_ai_answer, h1, h2, h3]
  · intro bot f h
    unfold field_write
    split_ifs with h1 h2 <;> simp_all

/-- Witness for C7: an unconfigured bot yields the empty answer and no
write on the concrete field. -/
theorem empty_answer_leaves_field_unmodified_witness :
    get_ai_answer w_bot "Expected CTC" = "" ∧ field_write w_bot w5_field = none :=
  ⟨empty_answer_leaves_field_unmodified.1 w_bot "Expected CTC"
      (Or.inl ⟨rfl, rfl⟩),
   empty_answer_leaves_field_unmodified.2 w_bot w5_field
      (empty_answer_leaves_field_unmodified.1 w_bot
        (resolve_question w5_field) (Or.inl ⟨rfl, rfl⟩))⟩

/-- C8. `tailor_resume` always degrades to the original resume path rather
than raising: on total provider failure (both attempts unconfigured,
raising, or empty) it returns `resume_path`; and whenever rendering the
document fails it also returns `resume_path`, whatever the providers did. -/
theorem tailor_resume_fallback_path :
    (∀ (bot : Bot) (render_ok : Bool) (job_desc company_name : String),
        provider_fails bot.gemini_client (tailor_prompt bot job_desc company_name) →
        provider_fails bot.groq_client (tailor_prompt bot job_desc company_name) →
        tailor_resume bot render_ok job_desc company_name = bot.resume_path) ∧
    (∀ (bot : Bot) (job_desc company_name : String),
        tailor_resume bot false job_desc company_name = bot.resume_path) := by
  constructor
  · intro bot render_ok jd cn hg hq
    unfold tailor_resume
    rcases hg with hg | ⟨f, hf, hfr⟩
    · rcases hq with hq | ⟨f2, hf2, hfr2⟩
      · simp [hg, hq, falsy]
      · rcases hfr2 with h2 | h2 <;> simp [hg, hf2, h2, falsy]
    · rcases hfr with h | h
      · rcases hq with hq | ⟨f2, hf2, hfr2⟩
        · simp [hf, h, hq, falsy]
        · rcases hfr2 with h2 | h2 <;> simp [hf, h, hf2, h2, falsy]
      · rcases hq with hq | ⟨f2, hf2, hfr2⟩
        · simp [hf, h, hq, falsy]
        · rcases hfr2 with h2 | h2 <;> simp [hf, h, hf2, h2, falsy]
  · intro bot jd cn
    unfold tailor_resume
    dsimp only
    split <;> simp

/-- Witness for C8 at a concrete unconfigured bot. -/
theorem tailor_resume_fallback_path_witness :
    tailor_resume w_bot true "jd" "Acme Corp" = w_bot.resume_path ∧
      tailor_resume w5_bot false "jd" "Acme Corp" = w5_bot.resume_path :=
  ⟨tailor_resume_fallback_path.1 w_bot true "jd" "Acme Corp"
      (Or.inl rfl) (Or.inl rfl),
   tailor_resume_fallback_path.2 w5_bot "jd" "Acme Corp"⟩

/-- C9 counterexample. Loading one keyword's search-results page
(`self.driver.get(search_url)`, line 277) sits outside the per-keyword
`try`, so an exception there aborts the whole run: with keywords
`["k1", "k2"]` and the page load for `k1` raising, the run ends with zero
applications and zero wizard sessions, whereas the claimed
advance-to-the-next-keyword behaviour (second conjunct: the loop run on
`["k2"]` alone) would have applied once. The aborting failure is not a
login failure. -/
theorem search_page_load_abort_counterexample :
    apply_to_jobs c9_bot c9_search 0 = (0, []) ∧
      apply_loop c9_bot c9_search 0 ["k2"] = (1, [0]) := by
  constructor <;> rfl

/-- C9 amended. Fault isolation holds at the posting boundary (a raising
card is skipped and the loop goes on as if it were absent) and for the
card wait inside the per-keyword `try` (the keyword is skipped); but an
exception while loading a keyword's search-results page (`driver.get`,
outside that `try`) aborts the entire run — no later keyword is visited —
and a failed login likewise yields a cycle with no applications and no
wizard sessions. -/
theorem per_posting_fault_isolation
    (bot : Bot) (search : String → SearchObs) (count : Nat) :
    (∀ (c : JobCard) (rest : List JobCard), c.raises_on_open = true →
        cards_loop bot count (c :: rest) = cards_loop bot count rest) ∧
    (∀ (kw : String) (rest : List String), search kw = .wait_raise →
        apply_loop bot search count (kw :: rest) = apply_loop bot search count rest) ∧
    (∀ (kw : String) (rest : List String), count < bot.max_apps →
        search kw = .nav_raise →
        apply_loop bot search count (kw :: rest) = (count, [])) ∧
    run_cycle bot false search count = (count, []) := by
  refine ⟨?_, ?_, ?_, rfl⟩
  · intro c rest hc
    by_cases hguard : bot.max_apps ≤ count
    · cases rest with
      | nil => simp [cards_loop, hguard]
      | cons r t => simp [cards_loop, hguard]
    · have hpc : process_card bot count c = (count, []) := by
        unfold process_card
        simp [hc]
      simp [cards_loop, hguard, hpc]
  · intro kw rest hkw
    by_cases hguard : bot.max_apps ≤ count
    · cases rest with
      | nil => simp [apply_loop, hguard]
      | cons r t => simp [apply_loop, hguard]
    · simp [apply_loop, hguard, hkw]
  · intro kw rest hlt hkw
    have hguard : ¬ bot.max_apps ≤ count := by omega
    simp [apply_loop, hguard, hkw]

/-- Witness for the amended C9 at concrete data. -/
theorem per_posting_fault_isolation_witness :
    cards_loop w_bot 0 [bad_card] = cards_loop w_bot 0 [] ∧
      apply_loop w_bot w_search 0 ["Software Engineer"] =
        apply_loop w_bot w_search 0 [] ∧
      apply_loop c9_bot c9_search 0 ["k1", "k2"] = (0, []) ∧
      run_cycle w_bot false w_search 0 = (0, []) :=
  ⟨(per_posting_fault_isolation w_bot w_search 0).1 bad_card [] rfl,
   (per_posting_fault_isolation w_bot w_search 0).2.1 "Software Engineer" [] rfl,
   (per_posting_fault_isolation c9_bot c9_search 0).2.2.1 "k1" ["k2"]
     (by decide) rfl,
   (per_posting_fault_isolation w_bot w_search 0).2.2.2⟩

/-- C10. `applied_count` is set to `0` only at construction and is never
reset by `run_cycle`: across any sequence of scheduled cycles the count is
monotone and the quota bounds the cumulative total over all cycles, and a
cycle entered with the quota already reached starts no wizard session and
changes nothing. -/
theorem applied_count_never_reset (bot : Bot) :
    (∀ (cycles : List (Bool × (String → SearchObs))) (count : Nat),
        count ≤ bot.max_apps → run_cycles bot cycles count ≤ bot.max_apps) ∧
    (∀ (login_ok : Bool) (search : String → SearchObs) (count : Nat),
        count ≤ (run_cycle bot login_ok search count).1) ∧
    (∀ (login_ok : Bool) (search : String → SearchObs) (count : Nat),
        bot.max_apps ≤ count → run_cycle bot login_ok search count = (count, [])) := by
  have hmono : ∀ (l : Bool) s (count : Nat), count ≤ (run_cycle bot l s count).1 := by
    intro l s count
    cases l with
    | false => simp [run_cycle]
    | true => simpa [run_cycle, apply_to_jobs] using
        apply_loop_fst_ge bot s bot.job_keywords count
  have hstop : ∀ (l : Bool) s (count : Nat), bot.max_apps ≤ count →
      run_cycle bot l s count = (count, []) := by
    intro l s count h
    cases l with
    | false => rfl
    | true =>
        show apply_to_jobs bot s count = (count, [])
        unfold apply_to_jobs
        cases bot.job_keywords with
        | nil => rfl
        | cons kw rest => simp [apply_loop, h]
  refine ⟨?_, hmono, hstop⟩
  intro cycles
  induction cycles with
  | nil => intro count h; exact h
  | cons cs rest ih =>
      intro count h
      obtain ⟨l, s⟩ := cs
      refine ih _ ?_
      cases l with
      | false => simpa [run_cycle] using h
      | true => simpa [run_cycle, apply_to_jobs] using
          apply_loop_fst_le bot s bot.job_keywords count h

/-- Witness for C10 at a concrete two-cycle schedule. -/
theorem applied_count_never_reset_witness :
    run_cycles w_bot [(true, w_search), (false, w_search)] 0 ≤ w_bot.max_apps ∧
      0 ≤ (run_cycle w_bot true w_search 0).1 ∧
      run_cycle w_bot true w_search 20 = (20, []) :=
  ⟨(applied_count_never_reset w_bot).1 [(true, w_search), (false, w_search)] 0
      (by decide),
   (applied_count_never_reset w_bot).2.1 true w_search 0,
   (applied_count_never_reset w_bot).2.2 true w_search 20 (by decide)⟩

end LinkedInUsingAI

